import Mathlib

/-!
Shallow embedding of the stream backend of the rustyline terminal
abstraction layer (`src/tty/stream.rs`).

The output stream (`Box<dyn Write + Send>`) is modelled as the string of
bytes/characters accumulated so far (an in-memory sink that accepts every
write and never fails), the input stream (`Stdin`) as the list of bytes
still unread.  Machine integers (`Unit = u16`) are modelled as `Nat`;
none of the operations below subtracts past zero (every subtraction is
branch-guarded exactly as in the source) and the claims' concrete inputs
stay far below `2^16`.
-/

namespace RustylineStream

/-- `crate::layout::Position` — a screen cell. -/
structure Position where
  row : Nat
  col : Nat
deriving DecidableEq, Repr

/-- `crate::layout::Layout`.  The struct itself is declared outside
`src/`; the spec's data model gives it as `{ start: Position, end: Position }`
(the field `end` is a Lean keyword, rendered `end_`). -/
structure Layout where
  start : Position
  end_ : Position
deriving DecidableEq, Repr

/-- `crate::config::BellStyle`. -/
inductive BellStyle where
  | None
  | Audible
  | Visible
deriving DecidableEq, Repr

/-- `crate::error::ReadlineError` — only the variants this backend
produces; `Eof` is the End-of-Input condition, distinct by construction
from the I/O error variants. -/
inductive ReadlineError where
  | Eof
  | Io (msg : String)
  | Errno (code : Nat)
deriving DecidableEq, Repr

/-- `crate::tty::Event` — the only variant this backend ever constructs
is `ExternalPrint` (the full enum is declared outside `src/`). -/
inductive Event where
  | ExternalPrint (text : String)
deriving DecidableEq, Repr

/-- `crate::KeyEvent` is declared outside `src/` and never constructed by
this backend; an opaque placeholder suffices. -/
inductive KeyEvent where
  | stub
deriving DecidableEq, Repr

/-- Outcome of a Rust call that may return `Ok`, return `Err`, or panic
(needed because `StreamReader::next_key` is `unimplemented!()`, which
panics rather than returning). -/
inductive RustOutcome (α : Type) where
  | ok (v : α)
  | err (e : ReadlineError)
  | panicked (msg : String)
deriving DecidableEq, Repr

/-- Does the outcome return an error value to the caller? -/
def RustOutcome.isErrValue : RustOutcome α → Bool
  | .err _ => true
  | _ => false

/-- Is the outcome a runtime panic? -/
def RustOutcome.isPanicked : RustOutcome α → Bool
  | .panicked _ => true
  | _ => false

/-! ## Input side: `StreamReader` -/

/-- A bounded `Read::read` with an `n`-byte buffer on an in-memory
stream: returns the bytes read and the rest of the stream.  At
end-of-stream it reads zero bytes. -/
def streamRead (input : List Nat) (cap : Nat) : List Nat × List Nat :=
  (input.take cap, input.drop cap)

/-- Byte-wise model of `String::from_utf8_lossy`: exact for buffers of
ASCII bytes (every byte `< 0x80` decodes to the corresponding character,
`0x00` included); a byte `≥ 0x80` is approximated by the replacement
character U+FFFD (no multi-byte sequence occurs in any claim's input). -/
def from_utf8_lossy (bs : List Nat) : String :=
  String.mk (bs.map fun b => if b < 128 then Char.ofNat b else Char.ofNat 0xFFFD)

/-- `StreamReader::wait_for_input` (`src/tty/stream.rs:123-129`): one
bounded read into a zeroed 128-byte buffer `buf`; `Err(Eof)` when the
read returns zero bytes; otherwise `Ok(ExternalPrint(from_utf8_lossy(&buf)))`
— note the source decodes the WHOLE buffer `buf`, not just the bytes
read.  Returns the result together with the rest of the input stream. -/
def wait_for_input (input : List Nat) :
    Except ReadlineError Event × List Nat :=
  let r := streamRead input 128
  let n := r.1.length
  if n = 0 then
    (Except.error ReadlineError.Eof, r.2)
  else
    let buf := r.1 ++ List.replicate (128 - n) 0
    (Except.ok (Event.ExternalPrint (from_utf8_lossy buf)), r.2)

/-- `StreamReader::next_key` (`src/tty/stream.rs:131-134`): the body is
`unimplemented!()`, a runtime panic with message "not implemented". -/
def next_key (input : List Nat) (single_esc_abort : Bool) :
    RustOutcome KeyEvent :=
  RustOutcome.panicked "not implemented"

/-! ## Output side: `StreamWriter` -/

/-- `StreamWriter` (`src/tty/stream.rs:159-166`).  The sink
`stream: Box<dyn Write + Send>` is modelled by the accumulated output
string `out`; `grapheme_cluster_mode` is modelled by its `width` function
on grapheme clusters (the enum and its `width` live outside `src/`). -/
structure StreamWriter where
  out : String
  cols : Nat
  rows : Nat
  buffer : String
  gwidth : String → Nat
  bell_style : BellStyle

/-- Modelled from the spec: `crate::tty::unix::get_win_size`, called by
`StreamWriter::new`, is not under `src/`.  The spec fixes this backend's
terminal dimensions: "Fixed terminal dimensions: 80 columns × 24 rows,
not queried from the environment in this backend". -/
def get_win_size : Nat × Nat := (80, 24)

/-- `StreamWriter::new` (`src/tty/stream.rs:169-187`): records the
dimensions from `get_win_size` and starts with an empty buffer; the sink
is moved in (modelled as the empty output string). -/
def StreamWriter.new (gwidth : String → Nat) (bell_style : BellStyle) :
    StreamWriter :=
  { out := ""
    cols := get_win_size.1
    rows := get_win_size.2
    buffer := ""
    gwidth := gwidth
    bell_style := bell_style }

/-- `Renderer::write_and_flush` (`src/tty/stream.rs:257-261`): writes all
bytes of `buf` and flushes; on the in-memory sink this always succeeds. -/
def write_and_flush (w : StreamWriter) (buf : String) :
    StreamWriter × Except ReadlineError Unit :=
  ({ w with out := w.out ++ buf }, Except.ok ())

/-- `Renderer::move_cursor` (`src/tty/stream.rs:202-216`): vertical
component (`B` down / `A` up) then horizontal component (`C` forward /
`D` backward), concatenated and written as one flush.  No branch
special-cases a zero delta. -/
def move_cursor (w : StreamWriter) (old new_ : Position) :
    StreamWriter × Except ReadlineError Unit :=
  let cursor_cmd :=
    (if new_.row > old.row then
      "\x1b[" ++ toString (new_.row - old.row) ++ "B"
    else
      "\x1b[" ++ toString (old.row - new_.row) ++ "A")
    ++
    (if new_.col > old.col then
      "\x1b[" ++ toString (new_.col - old.col) ++ "C"
    else
      "\x1b[" ++ toString (old.col - new_.col) ++ "D")
  write_and_flush w cursor_cmd

/-- `Renderer::refresh_line` (`src/tty/stream.rs:218-235`): clears the
internal buffer, appends the prompt and the optional hint, and writes the
buffer to the stream via `write_all` (the line, layouts and highlighter
arguments are unused by the source). -/
def refresh_line (w : StreamWriter) (prompt : String) (line : String)
    (hint : Option String) (old_layout new_layout : Layout) :
    StreamWriter × Except ReadlineError Unit :=
  let buffer := "" ++ prompt ++ (match hint with | some h => h | none => "")
  ({ w with buffer := buffer, out := w.out ++ buffer }, Except.ok ())

/-- One step of the grapheme loop of `calculate_position`
(`src/tty/stream.rs:239-249`), with the source's sequential field
updates kept: `pos.col += cw; pos.row += 1; pos.col = cw`. -/
def calcStep (gwidth : String → Nat) (pos : Position) (c : String) :
    Position :=
  if c = "\n" then
    { pos with col := 0, row := pos.row + 1 }
  else
    let cw := gwidth c
    let pos := { pos with col := pos.col + cw }
    let pos := { pos with row := pos.row + 1 }
    { pos with col := cw }

/-- `Renderer::calculate_position` (`src/tty/stream.rs:237-255`).  The
text argument is represented by its grapheme-cluster sequence (the
segmentation itself is the external `unicode_segmentation` crate): fold
the loop body over the clusters, then the final wrap check
`if pos.col == self.cols`. -/
def calculate_position (w : StreamWriter) (s : List String)
    (orig : Position) : Position :=
  let pos := s.foldl (calcStep w.gwidth) orig
  if pos.col = w.cols then { pos with col := 0, row := pos.row + 1 }
  else pos

/-- `Renderer::beep` (`src/tty/stream.rs:263-268`): writes the bell
character only when `bell_style == Audible`, then `Ok(())`. -/
def beep (w : StreamWriter) : StreamWriter × Except ReadlineError Unit :=
  if w.bell_style = BellStyle.Audible then
    write_and_flush w "\x07"
  else
    (w, Except.ok ())

/-- `StreamWriter::clear` (`src/tty/stream.rs:189-196`): builds a string
of `length` spaces and writes it. -/
def clear (w : StreamWriter) (length : Nat) (pos : Position) :
    StreamWriter × Except ReadlineError Unit :=
  let clear_cmd := (List.range length).foldl (fun acc _ => acc.push ' ') ""
  write_and_flush w clear_cmd

/-- `Renderer::clear_screen` (`src/tty/stream.rs:270-272`). -/
def clear_screen (w : StreamWriter) : StreamWriter × Except ReadlineError Unit :=
  write_and_flush w "\x1b[H\x1b[J"

/-- `Renderer::clear_rows` (`src/tty/stream.rs:274-281`): the loop is
`for _ in 0..=layout.end.row`, i.e. `layout.end.row + 1` iterations, each
appending the clear-to-end-of-line-plus-newline sequence;
`layout.start.row` is never read. -/
def clear_rows (w : StreamWriter) (layout : Layout) :
    StreamWriter × Except ReadlineError Unit :=
  let clear_cmd :=
    (List.range (layout.end_.row + 1)).foldl
      (fun acc _ => acc ++ "\x1b[K\n") ""
  write_and_flush w clear_cmd

/-- `Renderer::update_size` (`src/tty/stream.rs:283-287`): sets the fixed
size 80 × 24 unconditionally. -/
def update_size (w : StreamWriter) : StreamWriter :=
  { w with cols := 80, rows := 24 }

/-- `Renderer::get_columns` (`src/tty/stream.rs:289-291`). -/
def get_columns (w : StreamWriter) : Nat :=
  w.cols

/-- `Renderer::get_rows` (`src/tty/stream.rs:293-295`). -/
def get_rows (w : StreamWriter) : Nat :=
  w.rows

/-- `Renderer::move_cursor_at_leftmost` (`src/tty/stream.rs:305-308`):
writes the home-cursor sequence unconditionally. -/
def move_cursor_at_leftmost (w : StreamWriter) :
    StreamWriter × Except ReadlineError Unit :=
  write_and_flush w "\x1b[H"

/-! ## The Renderer operations as a single step function (for frame and
invariant claims). -/

/-- One invocation of a state-touching operation of the stream writer. -/
inductive RendererOp where
  | opMoveCursor (old new_ : Position)
  | opRefreshLine (prompt line : String) (hint : Option String)
      (old_layout new_layout : Layout)
  | opClear (length : Nat) (pos : Position)
  | opClearScreen
  | opClearRows (layout : Layout)
  | opBeep
  | opWriteAndFlush (buf : String)
  | opMoveCursorAtLeftmost
  | opUpdateSize

/-- Apply one operation to the writer state (results are all `Ok` on the
in-memory sink; only the state matters here). -/
def applyOp (w : StreamWriter) : RendererOp → StreamWriter
  | .opMoveCursor old new_ => (move_cursor w old new_).1
  | .opRefreshLine p l h ol nl => (refresh_line w p l h ol nl).1
  | .opClear len pos => (clear w len pos).1
  | .opClearScreen => (clear_screen w).1
  | .opClearRows layout => (clear_rows w layout).1
  | .opBeep => (beep w).1
  | .opWriteAndFlush buf => (write_and_flush w buf).1
  | .opMoveCursorAtLeftmost => (move_cursor_at_leftmost w).1
  | .opUpdateSize => update_size w

/-! ## Shared concrete instances and helper lemmas -/

/-- A concrete writer as `StreamWriter::new` builds it (unit grapheme
width, bell style `None`), used for concrete evaluations. -/
def sampleWriter : StreamWriter :=
  StreamWriter.new (fun _ => 1) BellStyle.None

/-- A concrete layout whose span does not start at row 0. -/
def sampleLayout : Layout :=
  { start := { row := 1, col := 0 }, end_ := { row := 1, col := 0 } }

/-- Written from the words of the spec/claim C4, for refinement
comparison with `calculate_position`: iterate the clusters; a
line-terminator cluster sets `col` to 0 and increments `row`; any other
cluster increments `row` and leaves `col` equal to the cluster's width;
after the last cluster, wrap exactly when `col` equals the terminal
width. -/
def advanceSpec (gwidth : String → Nat) (cols : Nat) :
    List String → Position → Position
  | [], pos =>
      if pos.col = cols then { row := pos.row + 1, col := 0 } else pos
  | c :: rest, pos =>
      if c = "\n" then
        advanceSpec gwidth cols rest { row := pos.row + 1, col := 0 }
      else
        advanceSpec gwidth cols rest { row := pos.row + 1, col := gwidth c }

/-- `n` concatenated copies of `t`. -/
def repeatStr (t : String) : Nat → String
  | 0 => ""
  | n + 1 => repeatStr t n ++ t

theorem foldl_range_append (t : String) (n : Nat) :
    ∀ s : String,
      (List.range n).foldl (fun acc _ => acc ++ t) s = s ++ repeatStr t n := by
  induction n with
  | zero => intro s; simp [repeatStr, String.append_empty]
  | succ m ih =>
      intro s
      rw [List.range_succ, List.foldl_append, ih s]
      simp [repeatStr, String.append_assoc]

theorem calcStep_newline (gwidth : String → Nat) (p : Position) :
    calcStep gwidth p "\n" = { row := p.row + 1, col := 0 } := by
  simp [calcStep]

theorem newline_fold (gwidth : String → Nat) (k : Nat) :
    ∀ r : Nat,
      (List.replicate k "\n").foldl (calcStep gwidth) { row := r, col := 0 }
        = { row := r + k, col := 0 } := by
  induction k with
  | zero => intro r; rfl
  | succ m ih =>
      intro r
      have hrep : List.replicate (m + 1) "\n" = "\n" :: List.replicate m "\n" := rfl
      rw [hrep]
      show (List.replicate m "\n").foldl (calcStep gwidth)
          (calcStep gwidth { row := r, col := 0 } "\n") = _
      rw [calcStep_newline, ih (r + 1)]
      congr 1
      omega

theorem applyOp_preserves_dims (w : StreamWriter) (op : RendererOp)
    (h : op ≠ RendererOp.opUpdateSize) :
    (applyOp w op).cols = w.cols ∧ (applyOp w op).rows = w.rows := by
  cases op with
  | opUpdateSize => exact absurd rfl h
  | opMoveCursor old new_ => exact ⟨rfl, rfl⟩
  | opRefreshLine p l hi ol nl => exact ⟨rfl, rfl⟩
  | opClear len pos => exact ⟨rfl, rfl⟩
  | opClearScreen => exact ⟨rfl, rfl⟩
  | opClearRows layout => exact ⟨rfl, rfl⟩
  | opBeep =>
      by_cases hb : w.bell_style = BellStyle.Audible <;>
        simp [applyOp, beep, write_and_flush, hb]
  | opWriteAndFlush buf => exact ⟨rfl, rfl⟩
  | opMoveCursorAtLeftmost => exact ⟨rfl, rfl⟩

/-- A second invariant-preservation helper: any operation keeps the
dimensions at 80 × 24 once they hold (the non-`update_size` operations
preserve them, `update_size` re-establishes them). -/
theorem applyOp_keeps_80_24 (w : StreamWriter) (op : RendererOp)
    (hc : w.cols = 80) (hr : w.rows = 24) :
    (applyOp w op).cols = 80 ∧ (applyOp w op).rows = 24 := by
  by_cases h : op = RendererOp.opUpdateSize
  · subst h
    exact ⟨rfl, rfl⟩
  · have hp := applyOp_preserves_dims w op h
    exact ⟨hp.1.trans hc, hp.2.trans hr⟩

theorem foldl_applyOp_keeps_80_24 (ops : List RendererOp) :
    ∀ w : StreamWriter, w.cols = 80 → w.rows = 24 →
      (ops.foldl applyOp w).cols = 80 ∧ (ops.foldl applyOp w).rows = 24 := by
  induction ops with
  | nil => intro w hc hr; exact ⟨hc, hr⟩
  | cons op rest ih =>
      intro w hc hr
      have hstep := applyOp_keeps_80_24 w op hc hr
      exact ih (applyOp w op) hstep.1 hstep.2

/-! ## Claims -/

/-- C1 (code bug): on an input stream holding exactly the bytes
`b"hi"`, the first `wait_for_input` does NOT return `ExternalPrint "hi"`
— the source decodes the whole zeroed 128-byte buffer, so the event text
is `"hi"` followed by 126 NUL characters — while the second call does
return the End-of-Input error as claimed (the read then returns zero
bytes). -/
theorem wait_for_input_hi_eof_bug :
    (wait_for_input [104, 105]).1 =
      Except.ok (Event.ExternalPrint
        ("hi" ++ String.mk (List.replicate 126 (Char.ofNat 0)))) ∧
    ("hi" ++ String.mk (List.replicate 126 (Char.ofNat 0))) ≠ "hi" ∧
    (wait_for_input (wait_for_input [104, 105]).2).1 =
      Except.error ReadlineError.Eof := by
  refine ⟨rfl, by decide, rfl⟩

/-- C2 (counterexample): for the layout with `start.row = 1` and
`end.row = 1` the claim predicts one line-clear sequence, but
`clear_rows` writes two — the loop runs from 0 to `end.row` and ignores
`start.row`. -/
theorem clear_rows_start_row_counterexample :
    (clear_rows sampleWriter sampleLayout).1.out ≠
      repeatStr "\x1b[K\n"
        (sampleLayout.end_.row - sampleLayout.start.row + 1) ∧
    (clear_rows sampleWriter sampleLayout).1.out =
      repeatStr "\x1b[K\n" 2 := by
  constructor <;> decide

/-- C2 (amended): `clear_rows(layout)` writes exactly
`layout.end.row + 1` copies of the clear-to-end-of-line-plus-newline
sequence — one for every row from 0 to `layout.end.row` inclusive,
regardless of `layout.start.row` — and nothing else, and succeeds. -/
theorem clear_rows_writes_endrow_succ_clears (w : StreamWriter)
    (layout : Layout) :
    clear_rows w layout =
      ({ w with out := w.out ++ repeatStr "\x1b[K\n" (layout.end_.row + 1) },
       Except.ok ()) := by
  show write_and_flush w
      ((List.range (layout.end_.row + 1)).foldl
        (fun acc _ => acc ++ "\x1b[K\n") "") = _
  rw [foldl_range_append]
  show ({ w with out := w.out ++ ("" ++ _) }, _) = _
  rw [String.empty_append]

/-- C3 (code bug): `move_cursor` between two equal positions writes the
zero-count motion codes `ESC[0A` and `ESC[0D` — there is no N=0 special
case — even though many terminals treat a zero count as 1, so the
emitted delta is not a net-zero motion. -/
theorem move_cursor_equal_pos_zero_count_codes :
    (move_cursor sampleWriter { row := 0, col := 0 }
        { row := 0, col := 0 }).1.out = "\x1b[0A\x1b[0D" ∧
    (move_cursor sampleWriter { row := 0, col := 0 }
        { row := 0, col := 0 }).2 = Except.ok () := by
  exact ⟨by decide, rfl⟩

/-- C4: `calculate_position` computes exactly the per-cluster accounting
the spec describes — line terminators reset `col` and bump `row`, every
other cluster bumps `row` and sets `col` to its width, and a final wrap
fires exactly when `col` equals the terminal width. -/
theorem calculate_position_matches_spec (w : StreamWriter)
    (s : List String) (orig : Position) :
    calculate_position w s orig = advanceSpec w.gwidth w.cols s orig := by
  induction s generalizing orig with
  | nil => rfl
  | cons c rest ih =>
      have h1 : calculate_position w (c :: rest) orig
          = calculate_position w rest (calcStep w.gwidth orig c) := rfl
      rw [h1, ih]
      by_cases hc : c = "\n"
      · simp [advanceSpec, calcStep, hc]
      · simp [advanceSpec, calcStep, hc]

/-- C5: the writer's dimensions are the fixed constants 80 × 24 recorded
at construction (`get_win_size` is spec-modelled as the constant pair),
and `get_columns` / `get_rows` still report 80 and 24 after any sequence
of renderer operations. -/
theorem dimensions_fixed_80_24 (gwidth : String → Nat) (bell : BellStyle)
    (ops : List RendererOp) :
    get_columns (ops.foldl applyOp (StreamWriter.new gwidth bell)) = 80 ∧
    get_rows (ops.foldl applyOp (StreamWriter.new gwidth bell)) = 24 :=
  foldl_applyOp_keeps_80_24 ops (StreamWriter.new gwidth bell) rfl rfl

/-- C6 (counterexample): at a concrete call, `next_key` does not return
an error value to the caller — it is a runtime panic
(`unimplemented!()`). -/
theorem next_key_no_error_value_counterexample :
    (next_key [] true).isErrValue = false ∧
    (next_key [] true).isPanicked = true :=
  ⟨rfl, rfl⟩

/-- C6 (amended): every call to `next_key` fails with the runtime
"not implemented" panic of `unimplemented!()`, which terminates the
calling context; it never returns a `KeyEvent` and never returns an
error value. -/
theorem next_key_always_panics (input : List Nat) (b : Bool) :
    next_key input b = RustOutcome.panicked "not implemented" :=
  rfl

/-- C7 (counterexample): on empty text the wrap adjustment still runs:
with the terminal width 80, the position `{row 0, col 80}` is not
returned unchanged — `calculate_position` yields `{row 1, col 0}`. -/
theorem calculate_position_empty_wrap_counterexample :
    calculate_position sampleWriter [] { row := 0, col := 80 } ≠
      ({ row := 0, col := 80 } : Position) ∧
    calculate_position sampleWriter [] { row := 0, col := 80 } =
      { row := 1, col := 0 } := by
  constructor <;> decide

/-- C7 (amended): `calculate_position` on empty text returns the
original position unchanged provided its `col` differs from the terminal
width; when `col` equals the width, the wrap adjustment still applies. -/
theorem calculate_position_empty_identity (w : StreamWriter)
    (p : Position) (h : p.col ≠ w.cols) :
    calculate_position w [] p = p := by
  simp [calculate_position, h]

theorem calculate_position_empty_identity_witness :
    ({ row := 0, col := 0 } : Position).col ≠ sampleWriter.cols ∧
    calculate_position sampleWriter [] { row := 0, col := 0 } =
      { row := 0, col := 0 } :=
  ⟨by decide,
   calculate_position_empty_identity sampleWriter { row := 0, col := 0 }
     (by decide)⟩

/-- C8: for every position `p` and `k ≥ 1`, text consisting solely of
`k` line terminators advances to `{row: p.row + k, col: 0}` (the final
wrap check cannot fire since the terminal width is nonzero — it is 80 in
this backend). -/
theorem calculate_position_newlines (w : StreamWriter) (p : Position)
    (k : Nat) (hk : 1 ≤ k) (hc : w.cols ≠ 0) :
    calculate_position w (List.replicate k "\n") p =
      { row := p.row + k, col := 0 } := by
  obtain ⟨m, rfl⟩ : ∃ m, k = m + 1 := ⟨k - 1, by omega⟩
  have hfold : (List.replicate (m + 1) "\n").foldl (calcStep w.gwidth) p
      = { row := p.row + (m + 1), col := 0 } := by
    have hrep : List.replicate (m + 1) "\n" = "\n" :: List.replicate m "\n" :=
      rfl
    rw [hrep]
    show (List.replicate m "\n").foldl (calcStep w.gwidth)
        (calcStep w.gwidth p "\n") = _
    rw [calcStep_newline, newline_fold w.gwidth m (p.row + 1)]
    congr 1
    omega
  show (if ((List.replicate (m + 1) "\n").foldl (calcStep w.gwidth) p).col
        = w.cols then _ else _) = _
  rw [hfold]
  exact if_neg fun h0 => hc h0.symm

theorem calculate_position_newlines_witness :
    1 ≤ 1 ∧ sampleWriter.cols ≠ 0 ∧
    calculate_position sampleWriter (List.replicate 1 "\n")
        { row := 0, col := 0 } = { row := 1, col := 0 } :=
  ⟨Nat.le_refl 1, by decide,
   calculate_position_newlines sampleWriter { row := 0, col := 0 } 1
     (Nat.le_refl 1) (by decide)⟩

/-- C9: `beep` appends the bell byte 0x07 exactly when the bell style is
`Audible` and appends the empty string otherwise, and in every case
returns success. -/
theorem beep_audible_iff (w : StreamWriter) :
    beep w =
      ({ w with out := w.out ++
          (if w.bell_style = BellStyle.Audible then "\x07" else "") },
       Except.ok ()) := by
  by_cases h : w.bell_style = BellStyle.Audible <;>
    simp [beep, write_and_flush, h, String.append_empty]

/-- C10: every modelled renderer operation other than `update_size`
leaves the `cols` and `rows` fields unchanged, and `update_size` sets
them to 80 and 24 unconditionally. -/
theorem renderer_ops_frame (w : StreamWriter) (op : RendererOp)
    (h : op ≠ RendererOp.opUpdateSize) :
    (applyOp w op).cols = w.cols ∧ (applyOp w op).rows = w.rows ∧
    (applyOp w RendererOp.opUpdateSize).cols = 80 ∧
    (applyOp w RendererOp.opUpdateSize).rows = 24 :=
  ⟨(applyOp_preserves_dims w op h).1, (applyOp_preserves_dims w op h).2,
   rfl, rfl⟩

theorem renderer_ops_frame_witness :
    RendererOp.opBeep ≠ RendererOp.opUpdateSize ∧
    ((applyOp sampleWriter RendererOp.opBeep).cols = sampleWriter.cols ∧
     (applyOp sampleWriter RendererOp.opBeep).rows = sampleWriter.rows ∧
     (applyOp sampleWriter RendererOp.opUpdateSize).cols = 80 ∧
     (applyOp sampleWriter RendererOp.opUpdateSize).rows = 24) :=
  ⟨fun hcontra => RendererOp.noConfusion hcontra,
   renderer_ops_frame sampleWriter RendererOp.opBeep
     (fun hcontra => RendererOp.noConfusion hcontra)⟩

end RustylineStream
